import Mathlib

set_option autoImplicit false

/-!
Shallow embedding of the todo-cli task reminder program (src/main.rs) and
verification of its specification.

Modelling conventions:
* chrono timestamps (DateTime of Utc) are integers counting seconds; chrono
  Duration arithmetic on them is exact, so shifting by m minutes adds 60 * m.
* u32 values are natural numbers; the id counter increment wraps modulo 2^32
  as u32 addition does in a release build.
* the tokio HashMap of tasks is an association list from key to Task; insert
  replaces any entry with the same key, remove deletes it.
* schedule_reminders is embedded as a pure function over an explicit clock:
  the Rust code reads Utc::now() exactly once (into the local variable now)
  before the first sleep, then computes both sleep durations from that single
  reading.  The embedding threads the clock through the sleeps: a sleep of
  duration d moves the clock forward by d.  Fields t1 and t2 of the result
  record the clock value after the start-reminder step and after the
  end-reminder step.
* printing is modelled as lists of emitted notifications and message lines;
  stderr and stdout are separate lists.  Returning normally from main yields
  process exit status 0, recorded in the exitCode field.
* the Google Calendar bridge (authenticate, add_to_google_calendar,
  sync_from_google_calendar) is an external collaborator and is not part of
  any claim about the core; it is omitted.
-/

namespace TodoCli

/-- Mirror of the Rust struct Task: id is a u32, timestamps are instants,
frequency_minutes is an optional i64. -/
structure Task where
  id : Nat
  title : String
  details : String
  start_time : Int
  end_time : Int
  is_recurring : Bool
  frequency_minutes : Option Int
  deriving DecidableEq, Repr

/-- Mirror of the Rust struct AppState: tasks is the HashMap from u32 keys to
Task values, next_id the u32 counter.  Both mutexes only serialise access and
are invisible in a sequential embedding. -/
structure AppState where
  tasks : List (Nat × Task)
  next_id : Nat
  deriving DecidableEq, Repr

/-- AppState::default() : empty map, counter 0 (u32 Default). -/
def initialState : AppState := { tasks := [], next_id := 0 }

/-- Modulus of u32 arithmetic. -/
def u32Mod : Nat := 4294967296

/-- Lookup in the association list modelling HashMap::get semantics. -/
def mapGet (k : Nat) : List (Nat × Task) → Option Task
  | [] => none
  | (k2, v) :: rest => if k = k2 then some v else mapGet k rest

/-- HashMap::insert semantics: the new binding shadows any previous binding of
the same key. -/
def mapInsert (k : Nat) (v : Task) (m : List (Nat × Task)) : List (Nat × Task) :=
  (k, v) :: m.filter (fun p => p.1 != k)

/-- HashMap::remove semantics on the underlying list: drop every binding of
the key. -/
def mapErase (k : Nat) (m : List (Nat × Task)) : List (Nat × Task) :=
  m.filter (fun p => p.1 != k)

/-- Keys currently bound in the store. -/
def storeKeys (st : AppState) : List Nat := st.tasks.map (fun p => p.1)

/-- AppState::add_task: reads the counter, assigns it as the key of the task,
increments the counter (u32 wrap-around), inserts the task value unchanged
under that key, and returns the key.  The passed Task is stored verbatim: the
function never writes the assigned key into the id field of the task. -/
def addTask (st : AppState) (task : Task) : Nat × AppState :=
  let task_id := st.next_id
  (task_id,
    { tasks := mapInsert task_id task st.tasks,
      next_id := (task_id + 1) % u32Mod })

/-- AppState::list_tasks: a snapshot of the stored task values. -/
def listTasks (st : AppState) : List Task := st.tasks.map (fun p => p.2)

/-- AppState::remove_task: HashMap::remove returns the removed value when the
key was bound and leaves the map untouched when it was not.  The counter is
never touched. -/
def removeTask (st : AppState) (id : Nat) : Option Task × AppState :=
  match mapGet id st.tasks with
  | some t => (some t, { tasks := mapErase id st.tasks, next_id := st.next_id })
  | none => (none, st)

/-- Console output of schedule_reminders, in emission order. -/
inductive Notification where
  | startsSoon (title : String)
  | endsSoon (title : String)
  | complete (title : String)
  | nextScheduled (id : Nat)
  deriving DecidableEq, Repr

/-- Result of one schedule_reminders activity: its notifications in order,
the store afterwards, the successor task handed to the freshly spawned
activity (none when no activity is spawned), and the clock values after the
start-reminder step (t1) and after the end-reminder step (t2). -/
structure SchedResult where
  notifications : List Notification
  state : AppState
  spawned : Option Task
  t1 : Int
  t2 : Int
  deriving DecidableEq, Repr

/-- Exact embedding of chrono Duration::minutes. -/
def minutes (m : Int) : Int := 60 * m

/-- Embedding of schedule_reminders(task, state) started when the clock reads
t0.  The Rust function evaluates Utc::now() once into the local variable now
before the first sleep; both reminder conditions compare against that single
reading, and both sleep durations are computed from it (to_std() succeeds
exactly when the guarded comparison made the duration positive, so the inner
if-let never filters anything extra).  A sleep of duration d wakes at
clock + d.  The sleep before inserting the successor recomputes Utc::now()
and therefore wakes exactly at the successor start time when that is still in
the future; it does not affect the store, the notifications of this activity,
or the spawned task, so its wake time is not recorded.  The recursive
schedule_reminders call for the successor runs in a freshly spawned runtime;
only the handed-off task is recorded. -/
def scheduleReminders (t0 : Int) (task : Task) (state : AppState) : SchedResult :=
  let reminder_time_start := task.start_time - minutes 5
  let reminder_time_end := task.end_time - minutes 2
  let now := t0
  let startNotifs : List Notification :=
    if reminder_time_start > now then [Notification.startsSoon task.title] else []
  let t1 : Int := if reminder_time_start > now then reminder_time_start else now
  let endNotifs : List Notification :=
    if reminder_time_end > now then [Notification.endsSoon task.title] else []
  let t2 : Int := if reminder_time_end > now then t1 + (reminder_time_end - now) else t1
  let baseNotifs := startNotifs ++ endNotifs ++ [Notification.complete task.title]
  if task.is_recurring then
    match task.frequency_minutes with
    | some frequency =>
      let next_task : Task :=
        { id := 0,
          title := task.title,
          details := task.details,
          start_time := task.start_time + minutes frequency,
          end_time := task.end_time + minutes frequency,
          is_recurring := true,
          frequency_minutes := some frequency }
      let added := addTask state next_task
      { notifications := baseNotifs ++ [Notification.nextScheduled added.1],
        state := added.2,
        spawned := some next_task,
        t1 := t1,
        t2 := t2 }
    | none =>
      { notifications := baseNotifs, state := state, spawned := none, t1 := t1, t2 := t2 }
  else
    { notifications := baseNotifs, state := state, spawned := none, t1 := t1, t2 := t2 }

/-- Outcome of the Add branch of main: process exit status, stderr lines,
stdout lines, resulting store, and the task handed to the spawned
schedule_reminders activity. -/
structure AddOutcome where
  exitCode : Nat
  stderrLines : List String
  stdoutLines : List String
  state : AppState
  scheduled : Option Task
  deriving DecidableEq, Repr

/-- Embedding of the Commands::Add arm of main, after the two timestamp
strings have been parsed (parsing is clap and chrono glue; a malformed string
panics before this logic runs).  Validation: start_time must be strictly
after now and end_time strictly after start_time; on failure main prints to
stderr with eprintln and returns normally, so the process exit status is 0.
On success the Task is built with the id 0 placeholder, stored, and the
confirmation line prints the id field of the local task value, not the key
the store assigned.  The calendar push is external and emits nothing modelled
here. -/
def runAdd (now : Int) (title details : String) (start_time end_time : Int)
    (recurring : Bool) (frequency_minutes : Option Int) (state : AppState) : AddOutcome :=
  if start_time ≤ now then
    { exitCode := 0,
      stderrLines := ["Error: Start time must be in the future."],
      stdoutLines := [],
      state := state,
      scheduled := none }
  else if end_time ≤ start_time then
    { exitCode := 0,
      stderrLines := ["Error: End time must be after the start time."],
      stdoutLines := [],
      state := state,
      scheduled := none }
  else
    let task : Task :=
      { id := 0,
        title := title,
        details := details,
        start_time := start_time,
        end_time := end_time,
        is_recurring := recurring,
        frequency_minutes := frequency_minutes }
    let added := addTask state task
    { exitCode := 0,
      stderrLines := [],
      stdoutLines := ["Task " ++ title ++ " added with ID: " ++ toString task.id],
      state := added.2,
      scheduled := some task }

/-- One store operation of a trace: an add or a remove. -/
inductive Op where
  | add (task : Task)
  | remove (id : Nat)
  deriving DecidableEq, Repr

/-- Effect of one operation on the store. -/
def applyOp (st : AppState) : Op → AppState
  | Op.add t => (addTask st t).2
  | Op.remove i => (removeTask st i).2

/-- Run a trace of store operations. -/
def runOps (st : AppState) : List Op → AppState
  | [] => st
  | op :: rest => runOps (applyOp st op) rest

/-- The ids handed back by the add calls of a trace, in call order. -/
def assignedIds (st : AppState) : List Op → List Nat
  | [] => []
  | Op.add t :: rest => (addTask st t).1 :: assignedIds (addTask st t).2 rest
  | Op.remove i :: rest => assignedIds (removeTask st i).2 rest

/-- Number of add operations in a trace. -/
def numAdds : List Op → Nat
  | [] => 0
  | Op.add _ :: rest => numAdds rest + 1
  | Op.remove _ :: rest => numAdds rest

/-- Notifications of one activity with the successor announcement removed:
the three lifecycle notifications the state machine of the spec talks
about. -/
def lifecycleNotifs (r : SchedResult) : List Notification :=
  r.notifications.filter fun n =>
    match n with
    | Notification.nextScheduled _ => false
    | _ => true

/-- Number of occurrences of a notification in an emission list. -/
def countNotif (n : Notification) : List Notification → Nat
  | [] => 0
  | m :: rest => (if m = n then 1 else 0) + countNotif n rest

/-- Sample task used for concrete evaluations. -/
def sampleTask : Task :=
  { id := 0, title := "a", details := "b", start_time := 600, end_time := 1200,
    is_recurring := false, frequency_minutes := none }

/-- Second sample task. -/
def sampleTask2 : Task :=
  { id := 0, title := "c", details := "d", start_time := 900, end_time := 1800,
    is_recurring := false, frequency_minutes := none }

/-- Recurring sample task. -/
def sampleRecurring : Task :=
  { id := 0, title := "r", details := "e", start_time := 600, end_time := 1200,
    is_recurring := true, frequency_minutes := some 60 }

/-- Task whose end-reminder instant lies before its start-reminder instant:
end_time precedes start_time by more than three minutes.  schedule_reminders
accepts any Task value. -/
def skewedTask : Task :=
  { id := 0, title := "x", details := "y", start_time := 900, end_time := 420,
    is_recurring := false, frequency_minutes := none }

/-- Task value stored by an Add invocation that passes a frequency while not
marking the task recurring. -/
def mismatchedTask : Task :=
  { id := 0, title := "a", details := "b", start_time := 10, end_time := 20,
    is_recurring := false, frequency_minutes := some 7 }

theorem mapGet_mapErase (k id : Nat) (m : List (Nat × Task)) :
    mapGet k (mapErase id m) = if k = id then none else mapGet k m := by
  induction m with
  | nil => simp [mapErase, mapGet]
  | cons p rest ih =>
    obtain ⟨k2, v⟩ := p
    by_cases h2 : k2 = id
    · subst h2
      have hf : mapErase k2 ((k2, v) :: rest) = mapErase k2 rest := by
        simp [mapErase, List.filter_cons]
      rw [hf, ih]
      by_cases hk : k = k2
      · simp [hk]
      · simp [hk, mapGet]
    · have hf : mapErase id ((k2, v) :: rest) = (k2, v) :: mapErase id rest := by
        simp [mapErase, List.filter_cons, h2]
      rw [hf]
      by_cases hk : k = k2
      · subst hk
        simp [mapGet, h2]
      · simp [mapGet, hk, ih]

/-- Claim C2 (counterexample): on the fresh store the very first add call
returns id 0 and stores the task under key 0, so 0 is a valid stored id and
add does return 0. -/
theorem first_add_returns_zero :
    (addTask initialState sampleTask).1 = 0
    ∧ mapGet 0 (addTask initialState sampleTask).2.tasks = some sampleTask :=
  ⟨rfl, rfl⟩

/-- Claim C2 (amended): add hands back the current counter value as the key;
the counter of the default store starts at 0, so the first add on a fresh
store returns 0 and the task is stored under key 0.  Id 0 is the placeholder
of Task values before insertion, but it is also the first valid store key. -/
theorem add_assigns_counter_value (st : AppState) (t : Task) :
    (addTask st t).1 = st.next_id
    ∧ (addTask initialState t).1 = 0
    ∧ mapGet 0 (addTask initialState t).2.tasks = some t :=
  ⟨rfl, rfl, rfl⟩

/-- Claim C6: a task with is_recurring = false never produces a successor:
the scheduler leaves the store unchanged and spawns no further activity. -/
theorem nonrecurring_no_successor (t0 : Int) (task : Task) (st : AppState)
    (h : task.is_recurring = false) :
    (scheduleReminders t0 task st).state = st
    ∧ (scheduleReminders t0 task st).spawned = none := by
  simp [scheduleReminders, h]

/-- Witness for nonrecurring_no_successor at a concrete task. -/
theorem nonrecurring_no_successor_witness :
    sampleTask.is_recurring = false
    ∧ ((scheduleReminders 0 sampleTask initialState).state = initialState
        ∧ (scheduleReminders 0 sampleTask initialState).spawned = none) :=
  ⟨rfl, nonrecurring_no_successor 0 sampleTask initialState rfl⟩

/-- Claim C7: remove returns exactly the binding of the id (some when
present, none when absent), never touches the counter, leaves every other
key bound as before with the removed id unbound afterwards, and when the id
was absent returns the store entirely unchanged. -/
theorem remove_task_spec (st : AppState) (id : Nat) :
    (removeTask st id).1 = mapGet id st.tasks
    ∧ (removeTask st id).2.next_id = st.next_id
    ∧ (∀ k, mapGet k (removeTask st id).2.tasks
        = if k = id then none else mapGet k st.tasks)
    ∧ ((removeTask st id).1 = none → (removeTask st id).2 = st)
    := by
  rcases h : mapGet id st.tasks with _ | t
  · refine ⟨by simp [removeTask, h], by simp [removeTask, h], ?_, by simp [removeTask, h]⟩
    intro k
    simp only [removeTask, h]
    by_cases hk : k = id
    · subst hk
      simp [h]
    · simp [hk]
  · refine ⟨by simp [removeTask, h], by simp [removeTask, h], ?_, by simp [removeTask, h]⟩
    intro k
    simp [removeTask, h, mapGet_mapErase]

/-- Witness for remove_task_spec: a present id is removed and returned, an
absent id yields none with the store unchanged. -/
theorem remove_task_spec_witness :
    (removeTask (addTask initialState sampleTask).2 0).1 = some sampleTask
    ∧ (removeTask initialState 5).1 = none
    ∧ (removeTask initialState 5).2 = initialState := by
  refine ⟨?_, ?_, (remove_task_spec initialState 5).2.2.2 rfl⟩
  · exact ((remove_task_spec (addTask initialState sampleTask).2 0).1).trans (by decide)
  · exact ((remove_task_spec initialState 5).1).trans rfl

/-- Claim C10: add_task stores the passed Task value verbatim, id field
included; the confirmation line of Add prints the id field of the local task
value, which is the 0 placeholder, while the store files the task under the
key next_id, whose id field is still 0. -/
theorem add_stores_value_verbatim (st : AppState) (task : Task)
    (now s e : Int) (title details : String) (rec : Bool) (freq : Option Int)
    (h1 : now < s) (h2 : s < e) :
    mapGet (addTask st task).1 (addTask st task).2.tasks = some task
    ∧ (runAdd now title details s e rec freq st).stdoutLines
        = ["Task " ++ title ++ " added with ID: " ++ toString (0 : Nat)]
    ∧ mapGet st.next_id (runAdd now title details s e rec freq st).state.tasks
        = some { id := 0, title := title, details := details, start_time := s,
                 end_time := e, is_recurring := rec, frequency_minutes := freq } := by
  have hn1 : ¬ (s ≤ now) := not_le.mpr h1
  have hn2 : ¬ (e ≤ s) := not_le.mpr h2
  refine ⟨by simp [addTask, mapInsert, mapGet], ?_, ?_⟩
  · simp [runAdd, hn1, hn2]
  · simp [runAdd, hn1, hn2, addTask, mapInsert, mapGet]

/-- Witness for add_stores_value_verbatim at concrete input. -/
theorem add_stores_value_verbatim_witness :
    ((0:Int) < 600 ∧ (600:Int) < 1200)
    ∧ (mapGet (addTask initialState sampleTask).1
          (addTask initialState sampleTask).2.tasks = some sampleTask
      ∧ (runAdd 0 "a" "b" 600 1200 false none initialState).stdoutLines
          = ["Task " ++ "a" ++ " added with ID: " ++ toString (0 : Nat)]
      ∧ mapGet initialState.next_id
          (runAdd 0 "a" "b" 600 1200 false none initialState).state.tasks
          = some { id := 0, title := "a", details := "b", start_time := 600,
                   end_time := 1200, is_recurring := false, frequency_minutes := none }) :=
  ⟨⟨by decide, by decide⟩,
    add_stores_value_verbatim initialState sampleTask 0 600 1200 "a" "b" false none
      (by decide) (by decide)⟩

/-- Claim C3 (counterexample): an Add whose start time is not in the future
is rejected with a message on stderr and an unchanged store, but the process
exit status is 0, not non-zero: main prints with eprintln and returns
normally. -/
theorem add_reject_exit_zero_counterexample :
    (runAdd 100 "a" "b" 50 200 false none initialState).exitCode = 0
    ∧ (runAdd 100 "a" "b" 50 200 false none initialState).stderrLines
        = ["Error: Start time must be in the future."]
    ∧ (runAdd 100 "a" "b" 50 200 false none initialState).state = initialState :=
  ⟨rfl, rfl, rfl⟩

/-- Claim C3 (amended): when start_time is not strictly in the future or
end_time is not strictly after start_time, Add is rejected: a message goes to
the error stream, the store is unchanged and no reminder activity is spawned,
but the process exits with status 0 (main returns normally). -/
theorem add_validation_rejects_with_exit_zero (now s e : Int)
    (title details : String) (rec : Bool) (freq : Option Int) (st : AppState)
    (h : s ≤ now ∨ e ≤ s) :
    (runAdd now title details s e rec freq st).exitCode = 0
    ∧ (runAdd now title details s e rec freq st).stderrLines ≠ []
    ∧ (runAdd now title details s e rec freq st).state = st
    ∧ (runAdd now title details s e rec freq st).scheduled = none := by
  by_cases h1 : s ≤ now
  · simp [runAdd, h1]
  · rcases h with h | h
    · exact absurd h h1
    · simp [runAdd, h1, h]

/-- Witness for add_validation_rejects_with_exit_zero at concrete input. -/
theorem add_validation_rejects_witness :
    ((50:Int) ≤ 100 ∨ (200:Int) ≤ 50)
    ∧ ((runAdd 100 "a" "b" 50 200 false none initialState).exitCode = 0
      ∧ (runAdd 100 "a" "b" 50 200 false none initialState).stderrLines ≠ []
      ∧ (runAdd 100 "a" "b" 50 200 false none initialState).state = initialState
      ∧ (runAdd 100 "a" "b" 50 200 false none initialState).scheduled = none) :=
  ⟨Or.inl (by decide),
    add_validation_rejects_with_exit_zero 100 50 200 "a" "b" false none initialState
      (Or.inl (by decide))⟩

/-- Claim C9 (counterexample): Add accepts and stores a task whose
frequency_minutes is present while is_recurring is false, violating the
claimed present-iff-recurring invariant. -/
theorem add_freq_iff_counterexample :
    mapGet 0 (runAdd 0 "a" "b" 10 20 false (some 7) initialState).state.tasks
      = some mismatchedTask
    ∧ mismatchedTask.is_recurring = false
    ∧ mismatchedTask.frequency_minutes = some 7 :=
  ⟨rfl, rfl, rfl⟩

/-- Claim C9 (amended): a valid-timed Add stores is_recurring and
frequency_minutes exactly as supplied on the command line, with no check
linking the two and no positivity check on the frequency. -/
theorem add_stores_flags_as_supplied (now s e : Int) (title details : String)
    (rec : Bool) (freq : Option Int) (st : AppState)
    (h1 : now < s) (h2 : s < e) :
    (runAdd now title details s e rec freq st).scheduled
      = some { id := 0, title := title, details := details, start_time := s,
               end_time := e, is_recurring := rec, frequency_minutes := freq } := by
  have hn1 : ¬ (s ≤ now) := not_le.mpr h1
  have hn2 : ¬ (e ≤ s) := not_le.mpr h2
  simp [runAdd, hn1, hn2]

/-- Witness for add_stores_flags_as_supplied: a recurring flag without any
frequency is also stored as supplied. -/
theorem add_stores_flags_witness :
    ((0:Int) < 10 ∧ (10:Int) < 20)
    ∧ (runAdd 0 "a" "b" 10 20 true none initialState).scheduled
        = some { id := 0, title := "a", details := "b", start_time := 10,
                 end_time := 20, is_recurring := true, frequency_minutes := none } :=
  ⟨⟨by decide, by decide⟩,
    add_stores_flags_as_supplied 0 10 20 "a" "b" true none initialState
      (by decide) (by decide)⟩

theorem removeTask_next_id (st : AppState) (i : Nat) :
    (removeTask st i).2.next_id = st.next_id := by
  rcases h : mapGet i st.tasks with _ | t <;> simp [removeTask, h]

theorem assignedIds_spec (ops : List Op) : ∀ st : AppState,
    st.next_id + numAdds ops < u32Mod →
    assignedIds st ops = List.range' st.next_id (numAdds ops) := by
  induction ops with
  | nil => intro st h; rfl
  | cons op rest ih =>
    intro st h
    cases op with
    | remove i =>
      have hnext : (removeTask st i).2.next_id = st.next_id := removeTask_next_id st i
      simp only [assignedIds, numAdds] at h ⊢
      rw [ih _ (by rw [hnext]; exact h), hnext]
    | add t =>
      simp only [assignedIds, numAdds] at h ⊢
      have hlt : st.next_id + 1 < u32Mod := by omega
      have hcounter : (addTask st t).2.next_id = st.next_id + 1 := by
        simp [addTask, Nat.mod_eq_of_lt hlt]
      have hkey : (addTask st t).1 = st.next_id := rfl
      rw [hkey, ih _ (by rw [hcounter]; omega), hcounter, List.range'_succ]

theorem runOps_next_id (ops : List Op) : ∀ st : AppState,
    st.next_id + numAdds ops < u32Mod →
    (runOps st ops).next_id = st.next_id + numAdds ops := by
  induction ops with
  | nil => intro st h; simp [runOps, numAdds]
  | cons op rest ih =>
    intro st h
    cases op with
    | remove i =>
      have hnext : (removeTask st i).2.next_id = st.next_id := removeTask_next_id st i
      simp only [runOps, applyOp, numAdds] at h ⊢
      rw [ih _ (by rw [hnext]; exact h), hnext]
    | add t =>
      simp only [runOps, applyOp, numAdds] at h ⊢
      have hlt : st.next_id + 1 < u32Mod := by omega
      have hcounter : (addTask st t).2.next_id = st.next_id + 1 := by
        simp [addTask, Nat.mod_eq_of_lt hlt]
      rw [ih _ (by rw [hcounter]; omega), hcounter]
      omega

/-- Claim C4: as long as the u32 counter does not overflow, the ids handed
out by the add calls of any trace are the consecutive counter values, hence
strictly increasing and pairwise distinct; the final counter equals the
starting counter plus the number of adds (so it is monotonic and no id is
ever handed out twice, even after removals), and remove never touches the
counter. -/
theorem ids_strictly_increasing_no_reuse (st : AppState) (ops : List Op)
    (h : st.next_id + numAdds ops < u32Mod) :
    assignedIds st ops = List.range' st.next_id (numAdds ops)
    ∧ (assignedIds st ops).Pairwise (· < ·)
    ∧ (assignedIds st ops).Nodup
    ∧ (runOps st ops).next_id = st.next_id + numAdds ops
    ∧ (∀ st2 i, (removeTask st2 i).2.next_id = st2.next_id) := by
  have he := assignedIds_spec ops st h
  refine ⟨he, ?_, ?_, runOps_next_id ops st h, fun st2 i => removeTask_next_id st2 i⟩
  · rw [he]
    exact List.pairwise_lt_range' st.next_id (numAdds ops) 1 (by norm_num)
  · rw [he]
    exact List.nodup_range' st.next_id (numAdds ops)

/-- Witness for ids_strictly_increasing_no_reuse on a concrete trace with an
interleaved remove. -/
theorem ids_strictly_increasing_witness :
    (initialState.next_id
        + numAdds [Op.add sampleTask, Op.add sampleTask2, Op.remove 0,
                   Op.add sampleRecurring] < u32Mod)
    ∧ (assignedIds initialState
          [Op.add sampleTask, Op.add sampleTask2, Op.remove 0, Op.add sampleRecurring]
        = List.range' initialState.next_id
            (numAdds [Op.add sampleTask, Op.add sampleTask2, Op.remove 0,
                      Op.add sampleRecurring])
      ∧ (assignedIds initialState
          [Op.add sampleTask, Op.add sampleTask2, Op.remove 0,
           Op.add sampleRecurring]).Pairwise (· < ·)
      ∧ (assignedIds initialState
          [Op.add sampleTask, Op.add sampleTask2, Op.remove 0,
           Op.add sampleRecurring]).Nodup
      ∧ (runOps initialState
          [Op.add sampleTask, Op.add sampleTask2, Op.remove 0,
           Op.add sampleRecurring]).next_id
          = initialState.next_id
            + numAdds [Op.add sampleTask, Op.add sampleTask2, Op.remove 0,
                       Op.add sampleRecurring]
      ∧ (∀ st2 i, (removeTask st2 i).2.next_id = st2.next_id)) :=
  ⟨by decide,
    ids_strictly_increasing_no_reuse initialState
      [Op.add sampleTask, Op.add sampleTask2, Op.remove 0, Op.add sampleRecurring]
      (by decide)⟩

/-- Claim C5: for a recurring task carrying frequency f, the scheduler hands
a successor to the new activity whose start and end times are exactly the
predecessor ones shifted by f minutes, whose title, details, recurrence flag
and frequency are copied verbatim, and which is stored under the fresh
counter value, a key distinct from every key already in the store (in
particular from the predecessor key). -/
theorem recurrence_successor_fields (t0 : Int) (task : Task) (st : AppState) (f : Int)
    (hrec : task.is_recurring = true) (hf : task.frequency_minutes = some f)
    (hfpos : 0 < f) (hinv : ∀ k ∈ storeKeys st, k < st.next_id) :
    (scheduleReminders t0 task st).spawned
      = some { id := 0, title := task.title, details := task.details,
               start_time := task.start_time + minutes f,
               end_time := task.end_time + minutes f,
               is_recurring := task.is_recurring,
               frequency_minutes := task.frequency_minutes }
    ∧ Notification.nextScheduled st.next_id
        ∈ (scheduleReminders t0 task st).notifications
    ∧ st.next_id ∉ storeKeys st
    ∧ mapGet st.next_id (scheduleReminders t0 task st).state.tasks
      = some { id := 0, title := task.title, details := task.details,
               start_time := task.start_time + minutes f,
               end_time := task.end_time + minutes f,
               is_recurring := task.is_recurring,
               frequency_minutes := task.frequency_minutes } := by
  refine ⟨?_, ?_, ?_, ?_⟩
  · simp [scheduleReminders, hrec, hf]
  · simp [scheduleReminders, hrec, hf, addTask]
  · intro hk
    exact absurd (hinv _ hk) (lt_irrefl _)
  · simp [scheduleReminders, hrec, hf, addTask, mapInsert, mapGet]

/-- Witness for recurrence_successor_fields: the predecessor is stored under
key 0, the successor under the fresh key 1, with times shifted by exactly 60
minutes. -/
theorem recurrence_successor_witness :
    (sampleRecurring.is_recurring = true
      ∧ sampleRecurring.frequency_minutes = some 60
      ∧ (0:Int) < 60
      ∧ ∀ k ∈ storeKeys (addTask initialState sampleRecurring).2,
          k < (addTask initialState sampleRecurring).2.next_id)
    ∧ ((scheduleReminders 0 sampleRecurring (addTask initialState sampleRecurring).2).spawned
        = some { id := 0, title := sampleRecurring.title,
                 details := sampleRecurring.details,
                 start_time := sampleRecurring.start_time + minutes 60,
                 end_time := sampleRecurring.end_time + minutes 60,
                 is_recurring := sampleRecurring.is_recurring,
                 frequency_minutes := sampleRecurring.frequency_minutes }
      ∧ Notification.nextScheduled (addTask initialState sampleRecurring).2.next_id
          ∈ (scheduleReminders 0 sampleRecurring
              (addTask initialState sampleRecurring).2).notifications
      ∧ (addTask initialState sampleRecurring).2.next_id
          ∉ storeKeys (addTask initialState sampleRecurring).2
      ∧ mapGet (addTask initialState sampleRecurring).2.next_id
          (scheduleReminders 0 sampleRecurring
            (addTask initialState sampleRecurring).2).state.tasks
        = some { id := 0, title := sampleRecurring.title,
                 details := sampleRecurring.details,
                 start_time := sampleRecurring.start_time + minutes 60,
                 end_time := sampleRecurring.end_time + minutes 60,
                 is_recurring := sampleRecurring.is_recurring,
                 frequency_minutes := sampleRecurring.frequency_minutes }) :=
  ⟨⟨rfl, rfl, by decide, by decide⟩,
    recurrence_successor_fields 0 sampleRecurring (addTask initialState sampleRecurring).2
      60 rfl rfl (by decide) (by decide)⟩

theorem countNotif_append (n : Notification) (l1 l2 : List Notification) :
    countNotif n (l1 ++ l2) = countNotif n l1 + countNotif n l2 := by
  induction l1 with
  | nil => simp [countNotif]
  | cons a rest ih =>
    show (if a = n then 1 else 0) + countNotif n (rest ++ l2)
        = ((if a = n then 1 else 0) + countNotif n rest) + countNotif n l2
    rw [ih]
    omega

theorem countNotif_ite_singleton (c : Prop) [Decidable c] (n m : Notification)
    (h : ¬ m = n) : countNotif n (if c then [m] else []) = 0 := by
  split <;> simp [countNotif, h]

theorem mem_ite_singleton (a b : Notification) (c : Prop) [Decidable c] :
    (a ∈ if c then [b] else ([] : List Notification)) ↔ (c ∧ a = b) := by
  by_cases h : c <;> simp [h]

theorem ite_singleton_sublist (c : Prop) [Decidable c] (a : Notification) :
    List.Sublist (if c then [a] else []) [a] := by
  split
  · exact List.Sublist.refl _
  · exact List.nil_sublist _

theorem filter_ite (p : Notification → Bool) (c : Prop) [Decidable c]
    (l1 l2 : List Notification) :
    List.filter p (if c then l1 else l2)
      = if c then List.filter p l1 else List.filter p l2 :=
  apply_ite _ _ _ _

/-- Structure of the emission list of one scheduler activity: the optional
start reminder, then the optional end reminder, then the unconditional
completion message, then, exactly when the task is recurring and carries a
frequency, the successor announcement with the fresh key. -/
theorem scheduleReminders_notifications (t0 : Int) (task : Task) (st : AppState) :
    (scheduleReminders t0 task st).notifications
      = ((if task.start_time - minutes 5 > t0
            then [Notification.startsSoon task.title] else [])
          ++ (if task.end_time - minutes 2 > t0
            then [Notification.endsSoon task.title] else [])
          ++ [Notification.complete task.title])
        ++ (if task.is_recurring = true ∧ task.frequency_minutes ≠ none
            then [Notification.nextScheduled st.next_id] else []) := by
  rcases task with ⟨tid, title, details, s, e, rec, freq⟩
  cases rec <;> cases freq <;> simp [scheduleReminders, addTask]

/-- Claim C1 (counterexample): started at clock 0 on the skewed task, the
scheduler emits the end reminder although its instant is not in the future
relative to the clock after the start-reminder step (t1 = 600 while the end
reminder instant is 300): the end-reminder condition is not evaluated
against a re-evaluated current time. -/
theorem end_reminder_reevaluation_counterexample :
    ¬ (Notification.endsSoon skewedTask.title
          ∈ (scheduleReminders 0 skewedTask initialState).notifications
        ↔ skewedTask.end_time - minutes 2
            > (scheduleReminders 0 skewedTask initialState).t1) := by
  decide

/-- Claim C1 (amended): the end-reminder suspension and notification occur
if and only if the end reminder instant is strictly in the future relative
to the single time reading taken before the start-reminder step; the current
time is not re-evaluated between the two steps. -/
theorem end_reminder_uses_initial_now (t0 : Int) (task : Task) (st : AppState) :
    Notification.endsSoon task.title ∈ (scheduleReminders t0 task st).notifications
      ↔ task.end_time - minutes 2 > t0 := by
  rw [scheduleReminders_notifications]
  simp [mem_ite_singleton]

/-- Claim C8: every run of the scheduler emits the completion notification
exactly once, and the lifecycle notifications are strictly ordered: the
start reminder (when emitted) precedes the end reminder (when emitted),
which precedes the completion notification; no branch skips completion. -/
theorem complete_emitted_once_ordered (t0 : Int) (task : Task) (st : AppState) :
    countNotif (Notification.complete task.title)
        (scheduleReminders t0 task st).notifications = 1
    ∧ List.Sublist (lifecycleNotifs (scheduleReminders t0 task st))
        [Notification.startsSoon task.title, Notification.endsSoon task.title,
         Notification.complete task.title] := by
  constructor
  · rw [scheduleReminders_notifications, countNotif_append, countNotif_append,
        countNotif_append]
    rw [countNotif_ite_singleton _ _ _ (by simp),
        countNotif_ite_singleton _ _ _ (by simp),
        countNotif_ite_singleton _ _ _ (by simp)]
    simp [countNotif]
  · have hsub :=
      ((ite_singleton_sublist (task.start_time - minutes 5 > t0)
          (Notification.startsSoon task.title)).append
        (ite_singleton_sublist (task.end_time - minutes 2 > t0)
          (Notification.endsSoon task.title))).append
        (List.Sublist.refl [Notification.complete task.title])
    simp only [lifecycleNotifs, scheduleReminders_notifications, List.filter_append,
      filter_ite, List.filter, List.append_nil, ite_self]
    simpa using hsub

end TodoCli
